import Mathlib

/-!
Shallow embedding of `.github/version_check.py`: a semantic-version bump
validator.  The script checks two version strings against the regex
`^\d+\.\d+\.\d+$`, rejects textually identical inputs, parses both into
integer triples and scans (major, minor, patch) for the first differing
component, accepting exactly an increment by one with all lower components
reset to zero.
-/

namespace VersionCheck

/-- The three bump kinds, from `class BumpType(Enum)`. -/
inductive BumpType where
  | major
  | minor
  | patch
deriving DecidableEq, Repr

/-- The `.value` of each enum member: `"major"`, `"minor"`, `"patch"`. -/
def BumpType.value : BumpType → String
  | .major => "major"
  | .minor => "minor"
  | .patch => "patch"

/-- Splitting a character list at `'.'` separators, mirroring Python
`str.split(".")`: always one more group than there are dots; groups may be
empty. -/
def splitDot : List Char → List (List Char)
  | [] => [[]]
  | c :: cs =>
    if c = '.' then [] :: splitDot cs
    else
      match splitDot cs with
      | [] => [[c]]
      | g :: gs => (c :: g) :: gs

/-- One or more digits: a nonempty all-digit group, i.e. what `\d+` matches
between the dots. -/
def isDigitGroup (g : List Char) : Bool := !g.isEmpty && g.all Char.isDigit

/-- `\d+\.\d+\.\d+` matched against an entire character list: exactly three
dot-separated nonempty digit groups. -/
def semverPat (cs : List Char) : Bool :=
  match splitDot cs with
  | [a, b, c] => isDigitGroup a && isDigitGroup b && isDigitGroup c
  | _ => false

/-- `is_valid_semver`, i.e. `bool(re.match(r"^\d+\.\d+\.\d+$", version))`.
Python's `$` anchor (without `re.MULTILINE`) matches at the end of the string
or just before one newline at the very end, so the regex also accepts a
version followed by a single trailing `"\n"`.  `\d` is modelled as an ASCII
digit (the embedding treats ASCII inputs). -/
def is_valid_semver (version : String) : Bool :=
  semverPat version.data ||
    (version.data.getLast? == some '\n' && semverPat version.data.dropLast)

/-- The whitespace characters Python `int()` strips from both ends. -/
def isPyWhitespace (c : Char) : Bool :=
  c == ' ' || c == '\t' || c == '\n' || c == '\r' || c == '\x0b' || c == '\x0c'

/-- Reading an all-digit character list in base 10. -/
def digitsToNat (g : List Char) : Nat :=
  g.foldl (fun n c => 10 * n + (c.toNat - 48)) 0

/-- Strip `isPyWhitespace` characters from both ends. -/
def stripWs (g : List Char) : List Char :=
  ((g.dropWhile isPyWhitespace).reverse.dropWhile isPyWhitespace).reverse

/-- Python `int(s)` on the strings reachable here (digit groups, possibly with
a trailing newline let through by the `$` anchor): surrounding whitespace is
stripped and the digits are read in base 10. -/
def pyInt (g : List Char) : Nat := digitsToNat (stripWs g)

/-- `list(map(int, version.split(".")))`. -/
def parseVersion (version : String) : List Nat := (splitDot version.data).map pyInt

/-- The message of `raise_semver_exception`, used for both the format failure
and the bump failure. -/
def semverExceptionMsg : String :=
  "Invalid version - must follow SEMVER convention (major.minor.patch)!"

/-- The message of the `ValueError` raised when the two strings are equal. -/
def noChangeMsg : String := "Version was not bumped!"

/-- `semver_parts = [BumpType.MAJOR, BumpType.MINOR, BumpType.PATCH]`. -/
def semver_parts : List BumpType := [BumpType.major, BumpType.minor, BumpType.patch]

/-- The `for idx in range(len(semver_parts))` loop of `validate_semver_bump`:
`rest` is the suffix of `semver_parts` starting at `idx`, so
`idx + 1 + rest.length = 3` at every reachable call and
`List.range' (idx + 1) rest.length` is Python's `range(idx + 1, len(semver_parts))`.
List indexing uses `getD`; both version lists have length 3 whenever the loop
runs (guaranteed by the regex check), so the default is never consulted. -/
def bumpLoopAux (p n : List Nat) : Nat → List BumpType → Except String (Option BumpType)
  | _, [] => Except.ok none
  | idx, part :: rest =>
    if n.getD idx 0 ≠ p.getD idx 0 then
      if ((n.getD idx 0 : Int) - 1 == (p.getD idx 0 : Int)) &&
          (List.range' (idx + 1) rest.length).all (fun j => n.getD j 0 == 0) then
        Except.ok (some part)
      else
        Except.error semverExceptionMsg
    else
      bumpLoopAux p n (idx + 1) rest

/-- The component-scanning loop started at index 0. -/
def bumpLoop (p n : List Nat) : Except String (Option BumpType) :=
  bumpLoopAux p n 0 semver_parts

/-- `validate_semver_bump`.  The Python function falls off the end of the loop
and returns `None` when the two strings differ textually but every parsed
component is equal; that is `Except.ok none` here.  The two `print` calls are
diagnostic only and are not modelled. -/
def validate_semver_bump (previous_version next_version : String) :
    Except String (Option BumpType) :=
  if !(is_valid_semver previous_version && is_valid_semver next_version) then
    Except.error semverExceptionMsg
  else if previous_version == next_version then
    Except.error noChangeMsg
  else
    bumpLoop (parseVersion previous_version) (parseVersion next_version)

/-- `sys.argv[k].removeprefix("v")`: drop one leading `'v'` when present;
occurrences elsewhere in the string are untouched. -/
def stripV (s : String) : String :=
  if s.data.head? == some 'v' then String.mk (s.data.drop 1) else s

/-- The `__main__` block up to and including the validation call. -/
def runMain (previous_version next_version : String) : Except String (Option BumpType) :=
  validate_semver_bump (stripV previous_version) (stripV next_version)

/-- The error the interpreter raises when `validate_semver_bump` returns
`None` and the `__main__` block evaluates `bump_type.value`. -/
def noneValueErrorMsg : String := "AttributeError: NoneType has no attribute value"

/-- The full `__main__` block with the `GITHUB_OUTPUT` sink made explicit as
the string the append goes to.  On a validation error nothing is appended;
when `validate_semver_bump` returns `None`, evaluating `bump_type.value`
raises before `output.write` runs, and opening in mode `"a"` does not alter
contents, so the sink is again unchanged. -/
def mainStep (previous_version next_version sink : String) :
    Except String BumpType × String :=
  match runMain previous_version next_version with
  | Except.error e => (Except.error e, sink)
  | Except.ok none => (Except.error noneValueErrorMsg, sink)
  | Except.ok (some bump_type) =>
      (Except.ok bump_type, sink ++ "bump_type=" ++ bump_type.value ++ "\n")

/-- Digit character for a value below ten. -/
def digitChar (d : Nat) : Char := Char.ofNat (48 + d)

/-- Decimal digit list of a natural number, most significant first. -/
def natToDigits (n : Nat) : List Char :=
  if n < 10 then [digitChar n] else natToDigits (n / 10) ++ [digitChar (n % 10)]
termination_by n
decreasing_by exact Nat.div_lt_self (by omega) (by omega)

/-- Canonical rendering of a three-component version as `"a.b.c"`. -/
def render (a b c : Nat) : String :=
  String.mk (natToDigits a ++ ('.' :: (natToDigits b ++ ('.' :: natToDigits c))))

/-- The format pattern exactly as the spec states it: one or more digits,
`"."`, one or more digits, `"."`, one or more digits, and nothing else — in
particular no trailing characters. -/
def spec_semver_pattern (s : String) : Bool := semverPat s.data

/-- The spec pattern amended to what the code accepts: the exact pattern, or
the exact pattern followed by one trailing newline (which Python's `$` anchor
also accepts). -/
def spec_semver_pattern_relaxed (s : String) : Bool :=
  spec_semver_pattern s ||
    (s.data.getLast? == some '\n' && spec_semver_pattern (String.mk s.data.dropLast))

/-- Strict lexicographic order on parsed (major, minor, patch) triples. -/
def lexLt3 (p n : List Nat) : Prop :=
  p.getD 0 0 < n.getD 0 0 ∨
    (p.getD 0 0 = n.getD 0 0 ∧
      (p.getD 1 0 < n.getD 1 0 ∨
        (p.getD 1 0 = n.getD 1 0 ∧ p.getD 2 0 < n.getD 2 0)))

lemma range_one_two : List.range' 1 2 = [1, 2] := rfl

lemma range_two_one : List.range' 2 1 = [2] := rfl

lemma range_three_zero : List.range' 3 0 = ([] : List Nat) := rfl

/-- The scan loop as a nested case split on the three components. -/
lemma bumpLoop_eq (p n : List Nat) :
    bumpLoop p n =
      if n.getD 0 0 ≠ p.getD 0 0 then
        if n.getD 0 0 = p.getD 0 0 + 1 ∧ n.getD 1 0 = 0 ∧ n.getD 2 0 = 0 then
          Except.ok (some BumpType.major)
        else Except.error semverExceptionMsg
      else if n.getD 1 0 ≠ p.getD 1 0 then
        if n.getD 1 0 = p.getD 1 0 + 1 ∧ n.getD 2 0 = 0 then
          Except.ok (some BumpType.minor)
        else Except.error semverExceptionMsg
      else if n.getD 2 0 ≠ p.getD 2 0 then
        if n.getD 2 0 = p.getD 2 0 + 1 then
          Except.ok (some BumpType.patch)
        else Except.error semverExceptionMsg
      else Except.ok none := by
  simp only [bumpLoop, semver_parts, bumpLoopAux, List.length_cons, List.length_nil,
    Nat.zero_add]
  norm_num [range_one_two, range_two_one, range_three_zero, List.all_cons, List.all_nil,
    beq_iff_eq]
  split_ifs <;> first | rfl | (exfalso; omega)

/-- When both inputs pass the format check and differ textually, the
validator is exactly the component scan. -/
lemma validate_eq_bumpLoop (s t : String) (hs : is_valid_semver s = true)
    (ht : is_valid_semver t = true) (hne : s ≠ t) :
    validate_semver_bump s t = bumpLoop (parseVersion s) (parseVersion t) := by
  simp [validate_semver_bump, hs, ht, hne]

lemma digitChar_isDigit (d : Nat) (h : d < 10) : (digitChar d).isDigit = true := by
  interval_cases d <;> decide

lemma digitChar_toNat (d : Nat) (h : d < 10) : (digitChar d).toNat = 48 + d := by
  interval_cases d <;> decide

lemma natToDigits_ne_nil (n : Nat) : natToDigits n ≠ [] := by
  rw [natToDigits]
  split <;> simp

lemma natToDigits_all_digit (n : Nat) : ∀ c ∈ natToDigits n, c.isDigit = true := by
  induction n using Nat.strong_induction_on with
  | _ n ih =>
    rw [natToDigits]
    split
    · next h => intro c hc; simp at hc; subst hc; exact digitChar_isDigit n h
    · next h =>
      intro c hc
      rw [List.mem_append] at hc
      rcases hc with hc | hc
      · exact ih (n / 10) (Nat.div_lt_self (by omega) (by omega)) c hc
      · simp at hc; subst hc
        exact digitChar_isDigit (n % 10) (Nat.mod_lt _ (by omega))

lemma digitsToNat_append (ds : List Char) (c : Char) :
    digitsToNat (ds ++ [c]) = 10 * digitsToNat ds + (c.toNat - 48) := by
  simp [digitsToNat, List.foldl_append]

lemma digitsToNat_natToDigits (n : Nat) : digitsToNat (natToDigits n) = n := by
  induction n using Nat.strong_induction_on with
  | _ n ih =>
    rw [natToDigits]
    split
    · next h =>
      simp [digitsToNat, digitChar_toNat n h]
    · next h =>
      rw [digitsToNat_append, ih (n / 10) (Nat.div_lt_self (by omega) (by omega)),
        digitChar_toNat (n % 10) (Nat.mod_lt _ (by omega))]
      omega

lemma digit_ne_dot (c : Char) (h : c.isDigit = true) : ¬ c = '.' := by
  rintro rfl; exact absurd h (by decide)

lemma natToDigits_no_dot (n : Nat) : ∀ c ∈ natToDigits n, ¬ c = '.' :=
  fun c hc => digit_ne_dot c (natToDigits_all_digit n c hc)

lemma splitDot_no_dot (g : List Char) (h : ∀ c ∈ g, ¬ c = '.') : splitDot g = [g] := by
  induction g with
  | nil => rfl
  | cons c cs ih =>
    have hc : ¬ c = '.' := h c (by simp)
    have ih' := ih (fun x hx => h x (by simp [hx]))
    simp [splitDot, hc, ih']

lemma splitDot_append (g rest : List Char) (h : ∀ c ∈ g, ¬ c = '.') :
    splitDot (g ++ '.' :: rest) = g :: splitDot rest := by
  induction g with
  | nil => simp [splitDot]
  | cons c cs ih =>
    have hc : ¬ c = '.' := h c (by simp)
    have ih' := ih (fun x hx => h x (by simp [hx]))
    simp [splitDot, hc, ih']

lemma splitDot_render (a b c : Nat) :
    splitDot (render a b c).data = [natToDigits a, natToDigits b, natToDigits c] := by
  show splitDot (natToDigits a ++ ('.' :: (natToDigits b ++ ('.' :: natToDigits c)))) =
    [natToDigits a, natToDigits b, natToDigits c]
  rw [splitDot_append _ _ (natToDigits_no_dot a),
    splitDot_append _ _ (natToDigits_no_dot b),
    splitDot_no_dot _ (natToDigits_no_dot c)]

lemma isDigitGroup_natToDigits (n : Nat) : isDigitGroup (natToDigits n) = true := by
  rw [isDigitGroup, Bool.and_eq_true]
  constructor
  · simp [natToDigits_ne_nil]
  · rw [List.all_eq_true]
    intro c hc
    simpa using natToDigits_all_digit n c hc

lemma is_valid_render (a b c : Nat) : is_valid_semver (render a b c) = true := by
  have hp : semverPat (render a b c).data = true := by
    rw [semverPat, splitDot_render]
    simp [isDigitGroup_natToDigits]
  simp [is_valid_semver, hp]

lemma digit_not_ws (c : Char) (h : c.isDigit = true) : isPyWhitespace c = false := by
  simp only [isPyWhitespace, Bool.or_eq_false_iff, beq_eq_false_iff_ne, ne_eq]
  refine ⟨⟨⟨⟨⟨?_, ?_⟩, ?_⟩, ?_⟩, ?_⟩, ?_⟩ <;> (rintro rfl; exact absurd h (by decide))

lemma dropWhile_false (p : Char → Bool) (g : List Char) (h : ∀ c ∈ g, p c = false) :
    g.dropWhile p = g := by
  cases g with
  | nil => rfl
  | cons c cs => simp [List.dropWhile, h c (by simp)]

lemma stripWs_digits (g : List Char) (h : ∀ c ∈ g, c.isDigit = true) : stripWs g = g := by
  have hws : ∀ c ∈ g, isPyWhitespace c = false := fun c hc => digit_not_ws c (h c hc)
  rw [stripWs, dropWhile_false _ _ hws,
    dropWhile_false _ _ (fun c hc => hws c (List.mem_reverse.mp hc)), List.reverse_reverse]

lemma pyInt_natToDigits (n : Nat) : pyInt (natToDigits n) = n := by
  rw [pyInt, stripWs_digits _ (natToDigits_all_digit n), digitsToNat_natToDigits]

lemma parse_render (a b c : Nat) : parseVersion (render a b c) = [a, b, c] := by
  rw [parseVersion, splitDot_render]
  simp [pyInt_natToDigits]

/-- Two canonical renderings with different component triples are different
strings (their parses differ). -/
lemma render_ne (a b c a' b' c' : Nat) (h : ¬(a = a' ∧ b = b' ∧ c = c')) :
    render a b c ≠ render a' b' c' := by
  intro he
  have hp := congrArg parseVersion he
  rw [parse_render, parse_render] at hp
  simp at hp
  exact h ⟨hp.1, hp.2.1, hp.2.2⟩

/-- A successful validation implies format validity, textual difference, and
success of the scan. -/
lemma validate_ok_inv (s t : String) (r : Option BumpType)
    (h : validate_semver_bump s t = Except.ok r) :
    is_valid_semver s = true ∧ is_valid_semver t = true ∧ s ≠ t ∧
      bumpLoop (parseVersion s) (parseVersion t) = Except.ok r := by
  unfold validate_semver_bump at h
  split at h
  · exact absurd h (by simp)
  · next hv =>
    simp at hv
    split at h
    · exact absurd h (by simp)
    · next hne =>
      simp only [beq_iff_eq] at hne
      exact ⟨hv.1, hv.2, hne, h⟩

/-- If the inputs are valid and differ, and at the first differing component
the increment-by-one-with-reset condition fails, the validator errors. -/
lemma validate_first_diff_error (s t : String) (i : Nat)
    (hs : is_valid_semver s = true) (ht : is_valid_semver t = true) (hne : s ≠ t)
    (hi : i < 3)
    (hlow : ∀ j, j < i → (parseVersion t).getD j 0 = (parseVersion s).getD j 0)
    (hdiff : (parseVersion t).getD i 0 ≠ (parseVersion s).getD i 0)
    (hbad : ¬((parseVersion t).getD i 0 = (parseVersion s).getD i 0 + 1 ∧
      (∀ j, i < j → j < 3 → (parseVersion t).getD j 0 = 0))) :
    validate_semver_bump s t = Except.error semverExceptionMsg := by
  rw [validate_eq_bumpLoop s t hs ht hne, bumpLoop_eq]
  set p := parseVersion s
  set n := parseVersion t
  interval_cases i
  · have hcond : ¬(n.getD 0 0 = p.getD 0 0 + 1 ∧ n.getD 1 0 = 0 ∧ n.getD 2 0 = 0) := by
      rintro ⟨h1, h2, h3⟩
      apply hbad
      refine ⟨h1, fun j hj0 hj3 => ?_⟩
      interval_cases j
      · exact h2
      · exact h3
    rw [if_pos hdiff, if_neg hcond]
  · have h0 : ¬(n.getD 0 0 ≠ p.getD 0 0) := by simpa using hlow 0 (by omega)
    have hcond : ¬(n.getD 1 0 = p.getD 1 0 + 1 ∧ n.getD 2 0 = 0) := by
      rintro ⟨h1, h2⟩
      apply hbad
      refine ⟨h1, fun j hj1 hj3 => ?_⟩
      interval_cases j
      exact h2
    rw [if_neg h0, if_pos hdiff, if_neg hcond]
  · have h0 : ¬(n.getD 0 0 ≠ p.getD 0 0) := by simpa using hlow 0 (by omega)
    have h1 : ¬(n.getD 1 0 ≠ p.getD 1 0) := by simpa using hlow 1 (by omega)
    have hcond : ¬(n.getD 2 0 = p.getD 2 0 + 1) := by
      intro h2
      exact hbad ⟨h2, fun j hj2 hj3 => absurd hj3 (by omega)⟩
    rw [if_neg h0, if_neg h1, if_pos hdiff, if_neg hcond]

/-- A successful classification is decided at the first differing component:
all earlier components agree, the differing one is previous+1, and all later
components of the next version are zero. -/
lemma validate_ok_some_inv (s t : String) (k : BumpType)
    (h : validate_semver_bump s t = Except.ok (some k)) :
    ∃ i, i < 3 ∧ k = semver_parts.getD i BumpType.major ∧
      (∀ j, j < i → (parseVersion t).getD j 0 = (parseVersion s).getD j 0) ∧
      (parseVersion t).getD i 0 = (parseVersion s).getD i 0 + 1 ∧
      (∀ j, i < j → j < 3 → (parseVersion t).getD j 0 = 0) := by
  obtain ⟨hs, ht, hne, hloop⟩ := validate_ok_inv s t (some k) h
  rw [bumpLoop_eq] at hloop
  set p := parseVersion s
  set n := parseVersion t
  by_cases h0 : n.getD 0 0 ≠ p.getD 0 0
  · rw [if_pos h0] at hloop
    by_cases hc0 : n.getD 0 0 = p.getD 0 0 + 1 ∧ n.getD 1 0 = 0 ∧ n.getD 2 0 = 0
    · rw [if_pos hc0] at hloop
      obtain rfl : BumpType.major = k := Option.some.inj (Except.ok.inj hloop)
      refine ⟨0, by omega, rfl, fun j hj => absurd hj (by omega), hc0.1,
        fun j hj0 hj3 => ?_⟩
      interval_cases j
      · exact hc0.2.1
      · exact hc0.2.2
    · rw [if_neg hc0] at hloop
      exact absurd hloop (by simp)
  · rw [if_neg h0] at hloop
    have he0 : n.getD 0 0 = p.getD 0 0 := by simpa using h0
    by_cases h1 : n.getD 1 0 ≠ p.getD 1 0
    · rw [if_pos h1] at hloop
      by_cases hc1 : n.getD 1 0 = p.getD 1 0 + 1 ∧ n.getD 2 0 = 0
      · rw [if_pos hc1] at hloop
        obtain rfl : BumpType.minor = k := Option.some.inj (Except.ok.inj hloop)
        refine ⟨1, by omega, rfl, fun j hj => ?_, hc1.1, fun j hj1 hj3 => ?_⟩
        · interval_cases j
          exact he0
        · interval_cases j
          exact hc1.2
      · rw [if_neg hc1] at hloop
        exact absurd hloop (by simp)
    · rw [if_neg h1] at hloop
      have he1 : n.getD 1 0 = p.getD 1 0 := by simpa using h1
      by_cases h2 : n.getD 2 0 ≠ p.getD 2 0
      · rw [if_pos h2] at hloop
        by_cases hc2 : n.getD 2 0 = p.getD 2 0 + 1
        · rw [if_pos hc2] at hloop
          obtain rfl : BumpType.patch = k := Option.some.inj (Except.ok.inj hloop)
          refine ⟨2, by omega, rfl, fun j hj => ?_, hc2,
            fun j hj2 hj3 => absurd hj3 (by omega)⟩
          interval_cases j
          · exact he0
          · exact he1
        · rw [if_neg hc2] at hloop
          exact absurd hloop (by simp)
      · rw [if_neg h2] at hloop
        exact absurd hloop (by simp)

/-- The only error the scan loop ever produces is the semver exception. -/
lemma bumpLoopAux_error_inv (rest : List BumpType) :
    ∀ (p n : List Nat) (idx : Nat) (e : String),
      bumpLoopAux p n idx rest = Except.error e → e = semverExceptionMsg := by
  induction rest with
  | nil => intro p n idx e h; exact absurd h (by simp [bumpLoopAux])
  | cons part rest ih =>
    intro p n idx e h
    unfold bumpLoopAux at h
    by_cases hd : n.getD idx 0 ≠ p.getD idx 0
    · rw [if_pos hd] at h
      by_cases hc : (((n.getD idx 0 : Int) - 1 == (p.getD idx 0 : Int)) &&
          (List.range' (idx + 1) rest.length).all (fun j => n.getD j 0 == 0)) = true
      · rw [if_pos hc] at h
        exact absurd h (by simp)
      · rw [if_neg hc] at h
        exact (Except.error.inj h).symm
    · rw [if_neg hd] at h
      exact ih p n (idx + 1) e h

/-- A successful classification means the parsed next triple is strictly
greater in lexicographic order. -/
lemma validate_ok_lexLt (s t : String) (k : BumpType)
    (h : validate_semver_bump s t = Except.ok (some k)) :
    lexLt3 (parseVersion s) (parseVersion t) := by
  obtain ⟨i, hi3, _, hlow, hsucc, _⟩ := validate_ok_some_inv s t k h
  unfold lexLt3
  interval_cases i
  · exact Or.inl (by omega)
  · exact Or.inr ⟨by have := hlow 0 (by omega); omega, Or.inl (by omega)⟩
  · exact Or.inr ⟨by have := hlow 0 (by omega); omega,
      Or.inr ⟨by have := hlow 1 (by omega); omega, by omega⟩⟩

lemma lexLt3_asymm (p n : List Nat) (h1 : lexLt3 p n) (h2 : lexLt3 n p) : False := by
  unfold lexLt3 at h1 h2
  omega

/-- C1: for every version `(a, b, c)` with non-negative components, bumping
major to `(a+1, 0, 0)` is accepted and classified `Major`, bumping minor to
`(a, b+1, 0)` is accepted and classified `Minor`, and bumping patch to
`(a, b, c+1)` is accepted and classified `Patch`. -/
theorem c1_canonical_bumps_classified (a b c : Nat) :
    validate_semver_bump (render a b c) (render (a + 1) 0 0) =
        Except.ok (some BumpType.major) ∧
      validate_semver_bump (render a b c) (render a (b + 1) 0) =
        Except.ok (some BumpType.minor) ∧
      validate_semver_bump (render a b c) (render a b (c + 1)) =
        Except.ok (some BumpType.patch) := by
  refine ⟨?_, ?_, ?_⟩
  · rw [validate_eq_bumpLoop _ _ (is_valid_render a b c) (is_valid_render (a + 1) 0 0)
      (render_ne a b c (a + 1) 0 0 (by omega)), parse_render, parse_render, bumpLoop_eq]
    simp
  · rw [validate_eq_bumpLoop _ _ (is_valid_render a b c) (is_valid_render a (b + 1) 0)
      (render_ne a b c a (b + 1) 0 (by omega)), parse_render, parse_render, bumpLoop_eq]
    simp
  · rw [validate_eq_bumpLoop _ _ (is_valid_render a b c) (is_valid_render a b (c + 1))
      (render_ne a b c a b (c + 1) (by omega)), parse_render, parse_render, bumpLoop_eq]
    simp

/-- C2: on the failing input `("1.02.0", "1.2.0")` — two format-valid,
textually different strings whose parsed triples are both `[1, 2, 0]` — the
code neither classifies a bump nor raises: it falls off the loop and returns
`None` (`Except.ok none`), the silent empty result the spec rejects. -/
theorem c2_silent_none_on_equal_tuples :
    ("1.02.0" : String) ≠ "1.2.0" ∧
      is_valid_semver "1.02.0" = true ∧ is_valid_semver "1.2.0" = true ∧
      parseVersion "1.02.0" = parseVersion "1.2.0" ∧
      validate_semver_bump "1.02.0" "1.2.0" = Except.ok none :=
  ⟨by decide, rfl, rfl, rfl, rfl⟩

/-- C3 counterexample: `"1.2.3\n"` does not match the claimed pattern (it has
a trailing character), yet the validator does not fail with `InvalidFormat`:
Python's `$` anchor accepts the trailing newline and the call even succeeds,
returning `Minor`. -/
theorem c3_strict_format_claim_refuted :
    spec_semver_pattern "1.2.3\n" = false ∧
      validate_semver_bump "1.2.3\n" "1.3.0" = Except.ok (some BumpType.minor) :=
  ⟨rfl, rfl⟩

/-- C3 (amended): the format language the code accepts is the claimed
digits-dot-digits-dot-digits pattern, or that pattern followed by exactly one
trailing newline (Python's `$` anchor also matches just before a final
newline); whenever either argument is outside that language the validator
fails with the format error before any other check, regardless of the other
argument. -/
theorem c3_format_failure_first (s t : String) :
    is_valid_semver s = spec_semver_pattern_relaxed s ∧
      (spec_semver_pattern_relaxed s = false ∨ spec_semver_pattern_relaxed t = false →
        validate_semver_bump s t = Except.error semverExceptionMsg) := by
  refine ⟨rfl, fun h => ?_⟩
  have h' : is_valid_semver s = false ∨ is_valid_semver t = false := h
  rcases h' with h' | h' <;> simp [validate_semver_bump, h']

/-- C3 witness: `"abc"` is outside the amended pattern and the validator
fails with the format error. -/
theorem c3_format_failure_first_witness :
    validate_semver_bump "abc" "1.2.3" = Except.error semverExceptionMsg :=
  (c3_format_failure_first "abc" "1.2.3").2 (Or.inl rfl)

/-- C4: for format-valid, textually different versions, if at the first
differing component the next value is not exactly previous+1 (a jump or a
decrease), or some lower-significance component of next is non-zero, the
validator fails with the bump error. -/
theorem c4_non_unit_or_unreset_bump_rejected (s t : String) (i : Nat)
    (hs : is_valid_semver s = true) (ht : is_valid_semver t = true) (hne : s ≠ t)
    (hi : i < 3)
    (hlow : ∀ j, j < i → (parseVersion t).getD j 0 = (parseVersion s).getD j 0)
    (hdiff : (parseVersion t).getD i 0 ≠ (parseVersion s).getD i 0)
    (hbad : (parseVersion t).getD i 0 ≠ (parseVersion s).getD i 0 + 1 ∨
      ∃ j, i < j ∧ j < 3 ∧ (parseVersion t).getD j 0 ≠ 0) :
    validate_semver_bump s t = Except.error semverExceptionMsg :=
  validate_first_diff_error s t i hs ht hne hi hlow hdiff (by
    rintro ⟨h1, h2⟩
    rcases hbad with hb | ⟨j, hij, hj3, hnz⟩
    · exact hb h1
    · exact hnz (h2 j hij hj3))

/-- C4 witness: `"1.2.3" -> "1.4.0"` skips a minor increment and fails with
the bump error. -/
theorem c4_non_unit_or_unreset_bump_rejected_witness :
    validate_semver_bump "1.2.3" "1.4.0" = Except.error semverExceptionMsg :=
  c4_non_unit_or_unreset_bump_rejected "1.2.3" "1.4.0" 1 rfl rfl (by decide) (by omega)
    (by decide) (by decide) (Or.inl (by decide))

/-- C5 counterexample: `"abc"` and `"abc"` are textually identical inputs,
yet the validator fails with the format error, not the `NoChange` error (the
two error values differ), because the format check runs first. -/
theorem c5_identical_strings_claim_refuted :
    ("abc" : String) = "abc" ∧
      validate_semver_bump "abc" "abc" = Except.error semverExceptionMsg ∧
      semverExceptionMsg ≠ noChangeMsg :=
  ⟨rfl, rfl, by decide⟩

/-- C5 (amended): for every format-valid version string `v`,
`validate(v, v)` fails with the `NoChange` error; identical inputs that fail
the format check fail with the format error instead. -/
theorem c5_no_change_on_valid_identical (s : String) (hs : is_valid_semver s = true) :
    validate_semver_bump s s = Except.error noChangeMsg := by
  simp [validate_semver_bump, hs]

/-- C5 witness: `validate("1.2.3", "1.2.3")` fails with the `NoChange`
error. -/
theorem c5_no_change_on_valid_identical_witness :
    validate_semver_bump "1.2.3" "1.2.3" = Except.error noChangeMsg :=
  c5_no_change_on_valid_identical "1.2.3" rfl

/-- C6: the classification is decided solely at the first index (in major,
minor, patch order) where the parsed tuples differ: on success the earlier
components agree, the differing component is previous+1 and all later
components of next are zero, and the result is the part name at that index;
and if the increment-or-reset condition fails at the first differing index,
validation fails with the bump error — no fallback to a lower-significance
component. -/
theorem c6_first_difference_decides :
    (∀ s t k, validate_semver_bump s t = Except.ok (some k) →
      ∃ i, i < 3 ∧ k = semver_parts.getD i BumpType.major ∧
        (∀ j, j < i → (parseVersion t).getD j 0 = (parseVersion s).getD j 0) ∧
        (parseVersion t).getD i 0 = (parseVersion s).getD i 0 + 1 ∧
        (∀ j, i < j → j < 3 → (parseVersion t).getD j 0 = 0)) ∧
    (∀ s t i, is_valid_semver s = true → is_valid_semver t = true → s ≠ t → i < 3 →
      (∀ j, j < i → (parseVersion t).getD j 0 = (parseVersion s).getD j 0) →
      (parseVersion t).getD i 0 ≠ (parseVersion s).getD i 0 →
      ¬((parseVersion t).getD i 0 = (parseVersion s).getD i 0 + 1 ∧
        (∀ j, i < j → j < 3 → (parseVersion t).getD j 0 = 0)) →
      validate_semver_bump s t = Except.error semverExceptionMsg) :=
  ⟨validate_ok_some_inv, validate_first_diff_error⟩

/-- C6 witness: `validate("1.2.3", "1.2.4")` returns `Patch` and index 2 is
the deciding first difference. -/
theorem c6_first_difference_decides_witness :
    ∃ i, i < 3 ∧ BumpType.patch = semver_parts.getD i BumpType.major ∧
      (∀ j, j < i → (parseVersion "1.2.4").getD j 0 = (parseVersion "1.2.3").getD j 0) ∧
      (parseVersion "1.2.4").getD i 0 = (parseVersion "1.2.3").getD i 0 + 1 ∧
      (∀ j, i < j → j < 3 → (parseVersion "1.2.4").getD j 0 = 0) :=
  c6_first_difference_decides.1 "1.2.3" "1.2.4" BumpType.patch rfl

/-- C7: the invocation wrapper strips exactly one leading `'v'` from each
argument (a second `'v'`, or a `'v'` elsewhere, is kept), so a `'v'`-prefixed
version validates like the bare version, and
`validate("v1.2.3", "v1.3.0")` returns `Minor`. -/
theorem c7_v_head_stripped_once (s p n : String) :
    stripV (String.mk ('v' :: s.data)) = s ∧
      stripV (String.mk ('v' :: 'v' :: s.data)) = String.mk ('v' :: s.data) ∧
      runMain (String.mk ('v' :: p.data)) (String.mk ('v' :: n.data)) =
        validate_semver_bump p n ∧
      runMain "v1.2.3" "v1.3.0" = Except.ok (some BumpType.minor) := by
  have h1 : ∀ w : String, stripV (String.mk ('v' :: w.data)) = w := by
    intro w
    simp [stripV]
  exact ⟨h1 s, by simp [stripV], by rw [runMain, h1 p, h1 n], rfl⟩

/-- C8: the output sink is unchanged whenever the run fails (validation
error, or the `None` fall-through), and exactly one `bump_type=<kind>` line is
appended on successful classification. -/
theorem c8_sink_written_only_on_success (prev next sink : String) :
    (∀ e, (mainStep prev next sink).1 = Except.error e →
      (mainStep prev next sink).2 = sink) ∧
    (∀ k, (mainStep prev next sink).1 = Except.ok k →
      (mainStep prev next sink).2 = sink ++ "bump_type=" ++ k.value ++ "\n") := by
  unfold mainStep
  rcases hr : runMain prev next with e | r
  · simp
  · rcases r with _ | k <;> simp

/-- C8 witness: on the failing invocation `("1.2.3", "1.2.3")` the sink
contents `"x"` are unchanged. -/
theorem c8_sink_written_only_on_success_witness :
    (mainStep "1.2.3" "1.2.3" "x").2 = "x" :=
  (c8_sink_written_only_on_success "1.2.3" "1.2.3" "x").1 noChangeMsg rfl

/-- C9: whenever the validator returns a bump kind, the parsed next triple is
strictly greater than the parsed previous triple in lexicographic
(major, minor, patch) order, and consequently the reversed pair can never
also succeed. -/
theorem c9_successful_bump_monotone (s t : String) (k : BumpType)
    (h : validate_semver_bump s t = Except.ok (some k)) :
    lexLt3 (parseVersion s) (parseVersion t) ∧
      ∀ k2, validate_semver_bump t s ≠ Except.ok (some k2) := by
  refine ⟨validate_ok_lexLt s t k h, fun k2 h2 => ?_⟩
  exact lexLt3_asymm _ _ (validate_ok_lexLt s t k h) (validate_ok_lexLt t s k2 h2)

/-- C9 witness: `validate("1.2.3", "2.0.0")` succeeds and `[1,2,3]` is
lexicographically below `[2,0,0]`. -/
theorem c9_successful_bump_monotone_witness :
    lexLt3 (parseVersion "1.2.3") (parseVersion "2.0.0") :=
  (c9_successful_bump_monotone "1.2.3" "2.0.0" BumpType.major rfl).1

/-- C10: the validator produces exactly two error values — the shared semver
exception (used for both format failures and bump failures, so a caller
cannot tell them apart: a concrete format failure and a concrete bump failure
produce equal results) and the distinct `NoChange` message. -/
theorem c10_format_and_bump_errors_identical :
    (∀ s t e, validate_semver_bump s t = Except.error e →
      e = semverExceptionMsg ∨ e = noChangeMsg) ∧
    validate_semver_bump "abc" "1.2.3" = validate_semver_bump "1.2.3" "1.4.0" ∧
    semverExceptionMsg ≠ noChangeMsg := by
  refine ⟨?_, rfl, by decide⟩
  intro s t e h
  unfold validate_semver_bump at h
  split at h
  · exact Or.inl (Except.error.inj h).symm
  · split at h
    · exact Or.inr (Except.error.inj h).symm
    · exact Or.inl (bumpLoopAux_error_inv semver_parts _ _ 0 e h)

/-- C10 witness: the error of `validate("abc", "1.2.3")` is one of the two
messages. -/
theorem c10_format_and_bump_errors_identical_witness :
    semverExceptionMsg = semverExceptionMsg ∨ semverExceptionMsg = noChangeMsg :=
  c10_format_and_bump_errors_identical.1 "abc" "1.2.3" semverExceptionMsg rfl

end VersionCheck
